import Mathlib

/-
Verification of the NotificationGateway contract implemented by the
example Valar email gRPC server (examples/valar-server/email_server.go).

Each RPC handler is embedded as a Lean function from the request, the
provider adapter (ResendClient) and the current time to a pair of
  * the RPC outcome: either a protocol-level gRPC error or a normal
    SendEmailResponse, and
  * the list of provider calls made during the RPC (the source makes at
    most one).
The provider adapter is modelled as a function from the call it receives
to its outcome (an error text or a message id), so theorems can quantify
over provider behaviour, and the call list records exactly the calls the
handler issued. Field names follow the Go exported names (To, Subject,
MessageId, ...). The Go local named variables is rendered as vars.
-/

/-- gRPC status codes used by the server and named by the spec. -/
inductive GrpcCode where
  | ok
  | invalidArgument
  | deadlineExceeded
  | unavailable
  | internal
  deriving DecidableEq

/-- A protocol-level gRPC error, as built by status.Error(code, msg). -/
structure GrpcStatus where
  code : GrpcCode
  message : String
  deriving DecidableEq

/-- emailv1.SendEmailResponse; proto3 string fields default to "". -/
structure SendEmailResponse where
  MessageId : String := ""
  Success : Bool
  Error : String := ""
  Status : String
  Timestamp : Int
  deriving DecidableEq

/-- emailv1.SendEmailRequest. -/
structure SendEmailRequest where
  To : String
  Subject : String
  HtmlBody : String
  TextBody : String
  deriving DecidableEq

/-- emailv1.SendVerificationEmailRequest. -/
structure SendVerificationEmailRequest where
  To : String
  VerificationToken : String
  VerificationUrl : String
  UserName : String
  deriving DecidableEq

/-- emailv1.SendPasswordResetEmailRequest. -/
structure SendPasswordResetEmailRequest where
  To : String
  ResetToken : String
  ResetUrl : String
  UserName : String
  ExpiryMinutes : Int
  deriving DecidableEq

/-- emailv1.SendWelcomeEmailRequest. -/
structure SendWelcomeEmailRequest where
  To : String
  UserName : String
  AccountType : String
  deriving DecidableEq

/-- emailv1.SendTransactionNotificationRequest; Amount and Balance are
floating-point on the wire. -/
structure SendTransactionNotificationRequest where
  To : String
  TransactionId : String
  TransactionType : String
  Amount : Float
  Currency : String
  RecipientName : String
  Timestamp : String
  Balance : Float

/-- emailv1.SendTemplateEmailRequest; the Go map[string]string of
variables is modelled as an association list. -/
structure SendTemplateEmailRequest where
  To : String
  TemplateId : String
  Variables : List (String × String)

/-- One call to the ResendClient provider adapter: either
SendEmail(to, subject, html, text) or SendWithTemplate(to, templateId, variables). -/
inductive ProviderCall where
  | send (to_ subject html text : String)
  | sendTemplate (to_ templateId : String) (vars : List (String × String))

/-- Outcome of one provider call: error text, or the provider message id. -/
abbrev ProviderOutcome := Except String String

/-- The provider adapter, as the single seam the handlers call through. -/
abbrev Provider := ProviderCall → ProviderOutcome

/-- Result of one RPC: protocol-level error or normal response, together
with the provider calls made. -/
abbrev RpcResult := Except GrpcStatus SendEmailResponse × List ProviderCall

/-- Response shaping repeated verbatim by every handler in the source:
on provider error e, SendEmailResponse{Success:false, Error:e,
Status:"failed", Timestamp:now}; on provider message id m,
SendEmailResponse{MessageId:m, Success:true, Status:"sent", Timestamp:now}. -/
def shape (now : Int) : ProviderOutcome → SendEmailResponse
  | .error e => { Success := false, Error := e, Status := "failed", Timestamp := now }
  | .ok messageId => { MessageId := messageId, Success := true, Status := "sent", Timestamp := now }

/-- SendEmail RPC handler (email_server.go, SendEmail). -/
def sendEmail (resend : Provider) (now : Int) (req : SendEmailRequest) : RpcResult :=
  if req.To = "" then
    (.error ⟨.invalidArgument, "recipient email is required"⟩, [])
  else if req.Subject = "" then
    (.error ⟨.invalidArgument, "subject is required"⟩, [])
  else if req.HtmlBody = "" ∧ req.TextBody = "" then
    (.error ⟨.invalidArgument, "email body is required"⟩, [])
  else
    let call := ProviderCall.send req.To req.Subject req.HtmlBody req.TextBody
    (.ok (shape now (resend call)), [call])

/-- SendVerificationEmail RPC handler (email_server.go, SendVerificationEmail). -/
def sendVerificationEmail (resend : Provider) (now : Int)
    (req : SendVerificationEmailRequest) : RpcResult :=
  if req.To = "" then
    (.error ⟨.invalidArgument, "recipient email is required"⟩, [])
  else if req.VerificationToken = "" then
    (.error ⟨.invalidArgument, "verification token is required"⟩, [])
  else
    let verificationURL :=
      if req.VerificationUrl = "" then
        "https://app.cloud9.money/verify?token=" ++ req.VerificationToken
      else req.VerificationUrl
    let vars :=
      [("user_name", req.UserName),
       ("verification_url", verificationURL),
       ("verification_token", req.VerificationToken),
       ("app_name", "Cloud9"),
       ("support_email", "support@cloud9.money")]
    let call := ProviderCall.sendTemplate req.To "verification-email" vars
    (.ok (shape now (resend call)), [call])

/-- SendPasswordResetEmail RPC handler (email_server.go, SendPasswordResetEmail). -/
def sendPasswordResetEmail (resend : Provider) (now : Int)
    (req : SendPasswordResetEmailRequest) : RpcResult :=
  if req.To = "" then
    (.error ⟨.invalidArgument, "recipient email is required"⟩, [])
  else if req.ResetToken = "" then
    (.error ⟨.invalidArgument, "reset token is required"⟩, [])
  else
    let resetURL :=
      if req.ResetUrl = "" then
        "https://app.cloud9.money/reset-password?token=" ++ req.ResetToken
      else req.ResetUrl
    let vars :=
      [("user_name", req.UserName),
       ("reset_url", resetURL),
       ("reset_token", req.ResetToken),
       ("expiry_minutes", toString req.ExpiryMinutes),
       ("app_name", "Cloud9"),
       ("support_email", "support@cloud9.money")]
    let call := ProviderCall.sendTemplate req.To "password-reset" vars
    (.ok (shape now (resend call)), [call])

/-- SendWelcomeEmail RPC handler (email_server.go, SendWelcomeEmail). -/
def sendWelcomeEmail (resend : Provider) (now : Int)
    (req : SendWelcomeEmailRequest) : RpcResult :=
  if req.To = "" then
    (.error ⟨.invalidArgument, "recipient email is required"⟩, [])
  else
    let vars :=
      [("user_name", req.UserName),
       ("account_type", req.AccountType),
       ("app_name", "Cloud9"),
       ("dashboard_url", "https://app.cloud9.money/dashboard")]
    let call := ProviderCall.sendTemplate req.To "welcome-email" vars
    (.ok (shape now (resend call)), [call])

/-- SendTransactionNotification RPC handler
(email_server.go, SendTransactionNotification). The parameter f2 models
Go fmt.Sprintf with the %.2f verb, applied to Amount and Balance. -/
def sendTransactionNotification (f2 : Float → String) (resend : Provider) (now : Int)
    (req : SendTransactionNotificationRequest) : RpcResult :=
  if req.To = "" then
    (.error ⟨.invalidArgument, "recipient email is required"⟩, [])
  else
    let vars :=
      [("transaction_id", req.TransactionId),
       ("transaction_type", req.TransactionType),
       ("amount", f2 req.Amount),
       ("currency", req.Currency),
       ("recipient_name", req.RecipientName),
       ("timestamp", req.Timestamp),
       ("balance", f2 req.Balance),
       ("app_name", "Cloud9")]
    let call := ProviderCall.sendTemplate req.To "transaction-notification" vars
    (.ok (shape now (resend call)), [call])

/-- SendTemplateEmail RPC handler (email_server.go, SendTemplateEmail). -/
def sendTemplateEmail (resend : Provider) (now : Int)
    (req : SendTemplateEmailRequest) : RpcResult :=
  if req.To = "" then
    (.error ⟨.invalidArgument, "recipient email is required"⟩, [])
  else if req.TemplateId = "" then
    (.error ⟨.invalidArgument, "template ID is required"⟩, [])
  else
    let call := ProviderCall.sendTemplate req.To req.TemplateId req.Variables
    (.ok (shape now (resend call)), [call])

/-- A request to any of the six dispatch operations of the server. -/
inductive NotificationRequest where
  | email (r : SendEmailRequest)
  | verification (r : SendVerificationEmailRequest)
  | passwordReset (r : SendPasswordResetEmailRequest)
  | welcome (r : SendWelcomeEmailRequest)
  | transactionNote (r : SendTransactionNotificationRequest)
  | templateEmail (r : SendTemplateEmailRequest)

/-- Uniform dispatch over the six operations. -/
def dispatch (f2 : Float → String) (resend : Provider) (now : Int) :
    NotificationRequest → RpcResult
  | .email r => sendEmail resend now r
  | .verification r => sendVerificationEmail resend now r
  | .passwordReset r => sendPasswordResetEmail resend now r
  | .welcome r => sendWelcomeEmail resend now r
  | .transactionNote r => sendTransactionNotification f2 resend now r
  | .templateEmail r => sendTemplateEmail resend now r

/-- The recipient field of a request, uniformly over operations. -/
def recipient : NotificationRequest → String
  | .email r => r.To
  | .verification r => r.To
  | .passwordReset r => r.To
  | .welcome r => r.To
  | .transactionNote r => r.To
  | .templateEmail r => r.To

/-- A request passes the handler validation checks (the negation of the
guard chain of the corresponding handler). -/
def validates : NotificationRequest → Prop
  | .email r => r.To ≠ "" ∧ r.Subject ≠ "" ∧ ¬(r.HtmlBody = "" ∧ r.TextBody = "")
  | .verification r => r.To ≠ "" ∧ r.VerificationToken ≠ ""
  | .passwordReset r => r.To ≠ "" ∧ r.ResetToken ≠ ""
  | .welcome r => r.To ≠ ""
  | .transactionNote r => r.To ≠ ""
  | .templateEmail r => r.To ≠ "" ∧ r.TemplateId ≠ ""

instance : (req : NotificationRequest) → Decidable (validates req)
  | .email r =>
      inferInstanceAs (Decidable (r.To ≠ "" ∧ r.Subject ≠ "" ∧ ¬(r.HtmlBody = "" ∧ r.TextBody = "")))
  | .verification r => inferInstanceAs (Decidable (r.To ≠ "" ∧ r.VerificationToken ≠ ""))
  | .passwordReset r => inferInstanceAs (Decidable (r.To ≠ "" ∧ r.ResetToken ≠ ""))
  | .welcome r => inferInstanceAs (Decidable (r.To ≠ ""))
  | .transactionNote r => inferInstanceAs (Decidable (r.To ≠ ""))
  | .templateEmail r => inferInstanceAs (Decidable (r.To ≠ "" ∧ r.TemplateId ≠ ""))

/-- True when the RPC produced a normal response rather than a
protocol-level error. -/
def isOkResult : Except GrpcStatus SendEmailResponse → Bool
  | .ok _ => true
  | .error _ => false

/-- The template id of a provider call, when it is a template call. -/
def callTemplateId : ProviderCall → Option String
  | .send _ _ _ _ => none
  | .sendTemplate _ templateId _ => some templateId

/-- The variable map of a provider call (empty for a raw send). -/
def callVariables : ProviderCall → List (String × String)
  | .send _ _ _ _ => []
  | .sendTemplate _ _ vars => vars

/-- The NotificationResult consistency invariant of the spec data model. -/
def resultInvariant (resp : SendEmailResponse) : Prop :=
  (resp.Success = true → resp.Error = "" ∧ resp.MessageId ≠ "") ∧
  (resp.Success = false → resp.MessageId = "" ∧ resp.Error ≠ "") ∧
  ¬(resp.MessageId ≠ "" ∧ resp.Error ≠ "") ∧
  ¬(resp.MessageId = "" ∧ resp.Error = "")

instance (resp : SendEmailResponse) : Decidable (resultInvariant resp) := by
  unfold resultInvariant
  infer_instance

/-- A provider that never returns an empty message id on success nor an
empty error text on failure. -/
def goodProvider (resend : Provider) : Prop :=
  ∀ c, match resend c with
    | .ok m => m ≠ ""
    | .error e => e ≠ ""

/-- The gRPC code of a protocol-level error outcome, if any. -/
def errorCode : Except GrpcStatus SendEmailResponse → Option GrpcCode
  | .ok _ => none
  | .error st => some st.code

/-- Claim C2: for every operation kind, a request whose recipient field is
empty is rejected with a protocol-level InvalidArgument error, not a
NotificationResult. -/
theorem C2_empty_recipient_rejected (f2 : Float → String) (resend : Provider)
    (now : Int) (req : NotificationRequest) (h : recipient req = "") :
    (dispatch f2 resend now req).1 =
      Except.error ⟨GrpcCode.invalidArgument, "recipient email is required"⟩ := by
  cases req <;>
    simp_all [dispatch, recipient, sendEmail, sendVerificationEmail,
      sendPasswordResetEmail, sendWelcomeEmail, sendTransactionNotification,
      sendTemplateEmail]

/-- Claim C2, witness: a concrete SendEmail request with empty recipient is
rejected with InvalidArgument. -/
theorem C2_empty_recipient_rejected_witness :
    (dispatch (fun _ => "0.00") (fun _ => Except.ok "m1") 0
        (NotificationRequest.email ⟨"", "hi", "<p>x</p>", ""⟩)).1 =
      Except.error ⟨GrpcCode.invalidArgument, "recipient email is required"⟩ :=
  C2_empty_recipient_rejected _ _ 0 _ rfl

/-- Claim C5: for every operation, a request that fails validation is answered
with the protocol-level error and the provider adapter is never invoked. -/
theorem C5_fail_fast (f2 : Float → String) (resend : Provider) (now : Int)
    (req : NotificationRequest) (h : ¬ validates req) :
    isOkResult (dispatch f2 resend now req).1 = false ∧
    (dispatch f2 resend now req).2 = [] := by
  cases req <;>
    simp only [dispatch, sendEmail, sendVerificationEmail, sendPasswordResetEmail,
      sendWelcomeEmail, sendTransactionNotification, sendTemplateEmail,
      validates] at h ⊢ <;>
    split_ifs <;>
    simp_all [isOkResult]

/-- Claim C5, witness: a concrete SendEmail request with an empty subject is
rejected and no provider call is made. -/
theorem C5_fail_fast_witness :
    isOkResult (dispatch (fun _ => "0.00") (fun _ => Except.ok "m1") 0
        (NotificationRequest.email ⟨"a@b.com", "", "<p>x</p>", ""⟩)).1 = false ∧
    (dispatch (fun _ => "0.00") (fun _ => Except.ok "m1") 0
        (NotificationRequest.email ⟨"a@b.com", "", "<p>x</p>", ""⟩)).2 = [] :=
  C5_fail_fast _ _ 0 _ (by decide)

/-- Claim C8: a RawMessage (SendEmail) request with non-empty recipient is
rejected, with InvalidArgument, exactly when the subject is empty or both
bodies are empty. -/
theorem C8_raw_validation (resend : Provider) (now : Int) (r : SendEmailRequest)
    (h : r.To ≠ "") :
    (isOkResult (sendEmail resend now r).1 = false ↔
      (r.Subject = "" ∨ (r.HtmlBody = "" ∧ r.TextBody = ""))) ∧
    (isOkResult (sendEmail resend now r).1 = false →
      errorCode (sendEmail resend now r).1 = some GrpcCode.invalidArgument) := by
  unfold sendEmail
  split_ifs with h1 h2 h3
  · exact absurd h1 h
  · simp [isOkResult, errorCode, h2]
  · simp [isOkResult, errorCode, h3]
  · simp [isOkResult, errorCode, h2, h3]

/-- Claim C8, witness: a concrete request with empty subject is rejected with
InvalidArgument, as the equivalence states. -/
theorem C8_raw_validation_witness :
    (isOkResult (sendEmail (fun _ => Except.ok "m1") 0 ⟨"a@b.com", "", "<p>x</p>", ""⟩).1 = false ↔
      (("" : String) = "" ∨ (("<p>x</p>" : String) = "" ∧ ("" : String) = ""))) ∧
    (isOkResult (sendEmail (fun _ => Except.ok "m1") 0 ⟨"a@b.com", "", "<p>x</p>", ""⟩).1 = false →
      errorCode (sendEmail (fun _ => Except.ok "m1") 0 ⟨"a@b.com", "", "<p>x</p>", ""⟩).1 =
        some GrpcCode.invalidArgument) :=
  C8_raw_validation _ 0 _ (by decide)

/-- Claim C9: for Verification and PasswordReset, a request with non-empty
recipient but empty token is rejected with a protocol-level InvalidArgument
error. -/
theorem C9_empty_token_rejected :
    (∀ (resend : Provider) (now : Int) (r : SendVerificationEmailRequest),
      r.To ≠ "" → r.VerificationToken = "" →
      (sendVerificationEmail resend now r).1 =
        Except.error ⟨GrpcCode.invalidArgument, "verification token is required"⟩) ∧
    (∀ (resend : Provider) (now : Int) (r : SendPasswordResetEmailRequest),
      r.To ≠ "" → r.ResetToken = "" →
      (sendPasswordResetEmail resend now r).1 =
        Except.error ⟨GrpcCode.invalidArgument, "reset token is required"⟩) := by
  constructor <;> intro resend now r h1 h2 <;>
    simp_all [sendVerificationEmail, sendPasswordResetEmail]

/-- Claim C9, witness: concrete Verification and PasswordReset requests with
empty tokens are both rejected with InvalidArgument. -/
theorem C9_empty_token_rejected_witness :
    (sendVerificationEmail (fun _ => Except.ok "m1") 0 ⟨"a@b.com", "", "", "u"⟩).1 =
      Except.error ⟨GrpcCode.invalidArgument, "verification token is required"⟩ ∧
    (sendPasswordResetEmail (fun _ => Except.ok "m1") 0 ⟨"a@b.com", "", "", "u", 30⟩).1 =
      Except.error ⟨GrpcCode.invalidArgument, "reset token is required"⟩ :=
  ⟨C9_empty_token_rejected.1 _ 0 _ (by decide) rfl,
   C9_empty_token_rejected.2 _ 0 _ (by decide) rfl⟩

/-- Claim C1, counterexample: on a validated request whose provider errors,
the server answers with a normal response whose Status field is the string
"failed", not "Failed" as the claim states. -/
theorem C1_counterexample :
    (sendEmail (fun _ => Except.error "boom") 0 ⟨"a@b.com", "hi", "<p>x</p>", ""⟩).1 =
      Except.ok { Success := false, Error := "boom", Status := "failed", Timestamp := 0 } ∧
    ("failed" : String) ≠ "Failed" :=
  ⟨rfl, by decide⟩

/-- Claim C1, amended: for every dispatch operation and every request that
passes validation, if the provider adapter returns a (non-empty) error text e,
the RPC returns a normal (non-error) response with Success=false, Error=e,
empty MessageId, and Status="failed" (lowercase). -/
theorem C1_provider_error_shaped (f2 : Float → String) (resend : Provider)
    (now : Int) (req : NotificationRequest) (e : String) (hv : validates req)
    (hr : ∀ c, resend c = Except.error e) (he : e ≠ "") :
    (dispatch f2 resend now req).1 =
      Except.ok { Success := false, Error := e, Status := "failed", Timestamp := now } := by
  cases req with
  | email r =>
    obtain ⟨h1, h2, h3⟩ := hv
    simp [dispatch, sendEmail, h1, h2, h3, hr, shape]
  | verification r =>
    obtain ⟨h1, h2⟩ := hv
    simp [dispatch, sendVerificationEmail, h1, h2, hr, shape]
  | passwordReset r =>
    obtain ⟨h1, h2⟩ := hv
    simp [dispatch, sendPasswordResetEmail, h1, h2, hr, shape]
  | welcome r =>
    have h1 : r.To ≠ "" := hv
    simp [dispatch, sendWelcomeEmail, h1, hr, shape]
  | transactionNote r =>
    have h1 : r.To ≠ "" := hv
    simp [dispatch, sendTransactionNotification, h1, hr, shape]
  | templateEmail r =>
    obtain ⟨h1, h2⟩ := hv
    simp [dispatch, sendTemplateEmail, h1, h2, hr, shape]

/-- Claim C1, witness: a concrete validated request with a provider error
"boom" yields the shaped failure response. -/
theorem C1_provider_error_shaped_witness :
    (dispatch (fun _ => "0.00") (fun _ => Except.error "boom") 0
        (NotificationRequest.email ⟨"a@b.com", "hi", "<p>x</p>", ""⟩)).1 =
      Except.ok { Success := false, Error := "boom", Status := "failed", Timestamp := 0 } :=
  C1_provider_error_shaped _ _ 0 _ "boom" (by decide) (fun _ => rfl) (by decide)

/-- Claim C3, counterexample: on a validated request whose provider succeeds,
the server answers with Status equal to the string "sent", not "Sent" as the
claim states. -/
theorem C3_counterexample :
    (sendEmail (fun _ => Except.ok "msg_001") 0 ⟨"a@b.com", "hi", "<p>x</p>", ""⟩).1 =
      Except.ok { MessageId := "msg_001", Success := true, Status := "sent", Timestamp := 0 } ∧
    ("sent" : String) ≠ "Sent" :=
  ⟨rfl, by decide⟩

/-- Claim C3, amended: for every dispatch operation and every request that
passes validation, if the provider adapter succeeds with a (non-empty) message
identifier m, the RPC returns a normal response with Success=true,
MessageId=m, empty Error, and Status="sent" (lowercase). -/
theorem C3_provider_success_shaped (f2 : Float → String) (resend : Provider)
    (now : Int) (req : NotificationRequest) (m : String) (hv : validates req)
    (hr : ∀ c, resend c = Except.ok m) (hm : m ≠ "") :
    (dispatch f2 resend now req).1 =
      Except.ok { MessageId := m, Success := true, Status := "sent", Timestamp := now } := by
  cases req with
  | email r =>
    obtain ⟨h1, h2, h3⟩ := hv
    simp [dispatch, sendEmail, h1, h2, h3, hr, shape]
  | verification r =>
    obtain ⟨h1, h2⟩ := hv
    simp [dispatch, sendVerificationEmail, h1, h2, hr, shape]
  | passwordReset r =>
    obtain ⟨h1, h2⟩ := hv
    simp [dispatch, sendPasswordResetEmail, h1, h2, hr, shape]
  | welcome r =>
    have h1 : r.To ≠ "" := hv
    simp [dispatch, sendWelcomeEmail, h1, hr, shape]
  | transactionNote r =>
    have h1 : r.To ≠ "" := hv
    simp [dispatch, sendTransactionNotification, h1, hr, shape]
  | templateEmail r =>
    obtain ⟨h1, h2⟩ := hv
    simp [dispatch, sendTemplateEmail, h1, h2, hr, shape]

/-- Claim C3, witness: a concrete validated request with provider message id
"msg_001" yields the shaped success response. -/
theorem C3_provider_success_shaped_witness :
    (dispatch (fun _ => "0.00") (fun _ => Except.ok "msg_001") 0
        (NotificationRequest.email ⟨"a@b.com", "hi", "<p>x</p>", ""⟩)).1 =
      Except.ok { MessageId := "msg_001", Success := true, Status := "sent", Timestamp := 0 } :=
  C3_provider_success_shaped _ _ 0 _ "msg_001" (by decide) (fun _ => rfl) (by decide)

/-- Every normal response produced by dispatch is the shaping of some provider
outcome: the handlers never build a response any other way. -/
theorem dispatch_ok_shape (f2 : Float → String) (resend : Provider) (now : Int)
    (req : NotificationRequest) (resp : SendEmailResponse)
    (h : (dispatch f2 resend now req).1 = Except.ok resp) :
    ∃ c, resp = shape now (resend c) := by
  cases req <;>
    simp only [dispatch, sendEmail, sendVerificationEmail, sendPasswordResetEmail,
      sendWelcomeEmail, sendTransactionNotification, sendTemplateEmail] at h <;>
    split_ifs at h <;>
    simp_all <;>
    exact ⟨_, h.symm⟩

/-- Claim C4, counterexample: if the provider succeeds with an empty message
id, the server returns a response with Success=true whose MessageId and Error
are both empty, violating the claimed invariant. -/
theorem C4_counterexample :
    (sendEmail (fun _ => Except.ok "") 0 ⟨"a@b.com", "hi", "<p>x</p>", ""⟩).1 =
      Except.ok { Success := true, Status := "sent", Timestamp := 0 } ∧
    ¬ resultInvariant { Success := true, Status := "sent", Timestamp := 0 } :=
  ⟨rfl, by decide⟩

/-- Claim C4, amended: provided the provider adapter never returns an empty
message id on success nor an empty error text on failure, every
NotificationResult produced by any operation satisfies the invariant:
Success=true implies Error empty and MessageId non-empty, Success=false
implies MessageId empty and Error non-empty, and the two fields are never
both populated nor both empty. -/
theorem C4_result_invariant (f2 : Float → String) (resend : Provider) (now : Int)
    (req : NotificationRequest) (resp : SendEmailResponse)
    (hg : goodProvider resend)
    (h : (dispatch f2 resend now req).1 = Except.ok resp) :
    resultInvariant resp := by
  obtain ⟨c, rfl⟩ := dispatch_ok_shape f2 resend now req resp h
  have hc := hg c
  cases hmc : resend c with
  | error e =>
    rw [hmc] at hc
    have hc2 : e ≠ "" := hc
    simp [shape, resultInvariant, hmc, hc2]
  | ok m =>
    rw [hmc] at hc
    have hc2 : m ≠ "" := hc
    simp [shape, resultInvariant, hmc, hc2]

/-- Claim C4, witness: a concrete run with a well-behaved provider produces a
response satisfying the invariant. -/
theorem C4_result_invariant_witness :
    resultInvariant { MessageId := "msg_001", Success := true, Status := "sent", Timestamp := 0 } :=
  C4_result_invariant (fun _ => "0.00") (fun _ => Except.ok "msg_001") 0
    (NotificationRequest.email ⟨"a@b.com", "hi", "<p>x</p>", ""⟩)
    { MessageId := "msg_001", Success := true, Status := "sent", Timestamp := 0 }
    (fun _ => (by decide : ("msg_001" : String) ≠ "")) rfl

/-- Claim C6, counterexample: a SendTransactionNotification request with a
non-empty recipient and an empty transactionId is not rejected: the provider
is invoked and a normal success response is returned. -/
theorem C6_counterexample :
    (sendTransactionNotification (fun _ => "0.00") (fun _ => Except.ok "m1") 0
        ⟨"a@b.com", "", "", 0, "", "", "", 0⟩).1 =
      Except.ok { MessageId := "m1", Success := true, Status := "sent", Timestamp := 0 } ∧
    ((sendTransactionNotification (fun _ => "0.00") (fun _ => Except.ok "m1") 0
        ⟨"a@b.com", "", "", 0, "", "", "", 0⟩).2).length = 1 :=
  ⟨rfl, rfl⟩

/-- Claim C6, amended: SendTransactionNotification requires only the
recipient. A request with non-empty recipient and empty transactionId is not
rejected: the provider is invoked once with the transaction-notification
template (the empty transactionId passed through) and a normal response is
returned. -/
theorem C6_transaction_id_not_required (f2 : Float → String) (resend : Provider)
    (now : Int) (r : SendTransactionNotificationRequest)
    (h : r.To ≠ "") (ht : r.TransactionId = "") :
    isOkResult (sendTransactionNotification f2 resend now r).1 = true ∧
    ((sendTransactionNotification f2 resend now r).2).map callTemplateId =
      [some "transaction-notification"] ∧
    ((sendTransactionNotification f2 resend now r).2).map
        (fun c => (callVariables c).lookup "transaction_id") = [some r.TransactionId] := by
  cases hmc : resend (ProviderCall.sendTemplate r.To "transaction-notification"
      [("transaction_id", r.TransactionId),
       ("transaction_type", r.TransactionType),
       ("amount", f2 r.Amount),
       ("currency", r.Currency),
       ("recipient_name", r.RecipientName),
       ("timestamp", r.Timestamp),
       ("balance", f2 r.Balance),
       ("app_name", "Cloud9")]) <;>
    simp [sendTransactionNotification, h, hmc, isOkResult, callTemplateId,
      callVariables, List.lookup]

/-- Claim C6, witness for the amended statement: evaluated at a concrete
request with empty transactionId. -/
theorem C6_transaction_id_not_required_witness :
    isOkResult (sendTransactionNotification (fun _ => "0.00") (fun _ => Except.ok "m1") 0
        ⟨"a@b.com", "", "", 0, "", "", "", 0⟩).1 = true ∧
    ((sendTransactionNotification (fun _ => "0.00") (fun _ => Except.ok "m1") 0
        ⟨"a@b.com", "", "", 0, "", "", "", 0⟩).2).map callTemplateId =
      [some "transaction-notification"] ∧
    ((sendTransactionNotification (fun _ => "0.00") (fun _ => Except.ok "m1") 0
        ⟨"a@b.com", "", "", 0, "", "", "", 0⟩).2).map
        (fun c => (callVariables c).lookup "transaction_id") = [some ""] :=
  C6_transaction_id_not_required _ _ 0 _ (by decide) rfl

/-- Claim C7: a SendVerification request that passes validation and has an
empty verificationUrl field produces a provider call whose variable map binds
verification_url to exactly https://app.cloud9.money/verify?token= followed by
the request's verification token. -/
theorem C7_default_verification_url (resend : Provider) (now : Int)
    (r : SendVerificationEmailRequest)
    (h1 : r.To ≠ "") (h2 : r.VerificationToken ≠ "") (h3 : r.VerificationUrl = "") :
    ((sendVerificationEmail resend now r).2).map
        (fun c => (callVariables c).lookup "verification_url") =
      [some ("https://app.cloud9.money/verify?token=" ++ r.VerificationToken)] := by
  simp [sendVerificationEmail, h1, h2, h3, callVariables, List.lookup]

/-- Claim C7, witness: with token abc123 and no explicit URL the variable map
binds verification_url to https://app.cloud9.money/verify?token=abc123. -/
theorem C7_default_verification_url_witness :
    ((sendVerificationEmail (fun _ => Except.ok "m1") 0
        ⟨"user@example.com", "abc123", "", "John Doe"⟩).2).map
        (fun c => (callVariables c).lookup "verification_url") =
      [some ("https://app.cloud9.money/verify?token=" ++ "abc123")] :=
  C7_default_verification_url _ 0 _ (by decide) (by decide) rfl

/-- Claim C10: every valid SendVerification request invokes the provider via
sendTemplate with the fixed template id verification-email and a variable map
binding app_name to Cloud9 and support_email to support@cloud9.money,
regardless of request field values; likewise SendPasswordReset always uses
template password-reset, SendWelcome welcome-email, and
SendTransactionNotification transaction-notification. -/
theorem C10_fixed_templates_and_constants :
    (∀ (resend : Provider) (now : Int) (r : SendVerificationEmailRequest),
      r.To ≠ "" → r.VerificationToken ≠ "" →
      ((sendVerificationEmail resend now r).2).map callTemplateId =
        [some "verification-email"] ∧
      ((sendVerificationEmail resend now r).2).map
          (fun c => ((callVariables c).lookup "app_name",
                     (callVariables c).lookup "support_email")) =
        [(some "Cloud9", some "support@cloud9.money")]) ∧
    (∀ (resend : Provider) (now : Int) (r : SendPasswordResetEmailRequest),
      r.To ≠ "" → r.ResetToken ≠ "" →
      ((sendPasswordResetEmail resend now r).2).map callTemplateId =
        [some "password-reset"]) ∧
    (∀ (resend : Provider) (now : Int) (r : SendWelcomeEmailRequest),
      r.To ≠ "" →
      ((sendWelcomeEmail resend now r).2).map callTemplateId =
        [some "welcome-email"]) ∧
    (∀ (f2 : Float → String) (resend : Provider) (now : Int)
        (r : SendTransactionNotificationRequest),
      r.To ≠ "" →
      ((sendTransactionNotification f2 resend now r).2).map callTemplateId =
        [some "transaction-notification"]) := by
  refine ⟨?_, ?_, ?_, ?_⟩ <;> intros <;>
    simp_all [sendVerificationEmail, sendPasswordResetEmail, sendWelcomeEmail,
      sendTransactionNotification, callTemplateId, callVariables, List.lookup]

/-- Claim C10, witness: concrete valid requests for the four fixed-purpose
operations use their fixed template ids and product constants. -/
theorem C10_fixed_templates_and_constants_witness :
    (((sendVerificationEmail (fun _ => Except.ok "m1") 0
        ⟨"user@example.com", "abc123", "", "John Doe"⟩).2).map callTemplateId =
      [some "verification-email"] ∧
     ((sendVerificationEmail (fun _ => Except.ok "m1") 0
        ⟨"user@example.com", "abc123", "", "John Doe"⟩).2).map
          (fun c => ((callVariables c).lookup "app_name",
                     (callVariables c).lookup "support_email")) =
        [(some "Cloud9", some "support@cloud9.money")]) ∧
    ((sendPasswordResetEmail (fun _ => Except.ok "m1") 0
        ⟨"user@example.com", "tok", "", "John Doe", 30⟩).2).map callTemplateId =
      [some "password-reset"] ∧
    ((sendWelcomeEmail (fun _ => Except.ok "m1") 0
        ⟨"user@example.com", "John Doe", "personal"⟩).2).map callTemplateId =
      [some "welcome-email"] ∧
    ((sendTransactionNotification (fun _ => "0.00") (fun _ => Except.ok "m1") 0
        ⟨"user@example.com", "txn1", "credit", 0, "KES", "Jane", "", 0⟩).2).map callTemplateId =
      [some "transaction-notification"] :=
  ⟨C10_fixed_templates_and_constants.1 _ 0 _ (by decide) (by decide),
   C10_fixed_templates_and_constants.2.1 _ 0 _ (by decide) (by decide),
   C10_fixed_templates_and_constants.2.2.1 _ 0 _ (by decide),
   C10_fixed_templates_and_constants.2.2.2 _ _ 0 _ (by decide)⟩
